import Mathlib

set_option maxRecDepth 10000

/- Shallow embedding of the ACF Guidance Harvester v2 core:
   scripts_v2/validate.py (content validation gate) and scripts_v2/harvest_v2.py
   (source-chain orchestrator).

   File contents are modelled as lists of characters, one character per byte
   (Latin-1 style), since the Python code reads the same file both as bytes
   (magic-byte sniffing) and as text (indicator scanning); all concrete
   inputs used below are ASCII, where the two views coincide exactly.
   Network traffic and HTML link parsing (requests / BeautifulSoup / urllib)
   are modelled by an explicit environment record supplying, per URL, the
   HTTP response and the resolved anchor targets the parser would find.
   Filesystem identity is represented by the filename passed to the
   validator (the Python code validates a path and takes its extension). -/

/- ──────────────── character and string utilities ──────────────── -/

def apos : Char := Char.ofNat 39

def bslash : Char := Char.ofNat 92

def lbraceChar : Char := Char.ofNat 123

/-- Character class of the regex escape for whitespace used throughout
validate.py (space, tab, newline, carriage return, vertical tab, form feed). -/
def isPySpace (c : Char) : Bool :=
  c == ' ' || c == Char.ofNat 9 || c == Char.ofNat 10 || c == Char.ofNat 13
    || c == Char.ofNat 11 || c == Char.ofNat 12

def lowerStr (s : List Char) : List Char := s.map Char.toLower

/-- Python str.startswith on character lists. -/
def listStarts : List Char → List Char → Bool
  | [], _ => true
  | _ :: _, [] => false
  | p :: ps, c :: cs => (c == p) && listStarts ps cs

/-- Substring test, mirroring the Python expression `needle in hay`. -/
def containsSub (needle : List Char) : List Char → Bool
  | [] => needle.isEmpty
  | c :: rest => listStarts needle (c :: rest) || containsSub needle rest

/-- Case-insensitive prefix test; the pattern is supplied already lowercased. -/
def ciStarts : List Char → List Char → Bool
  | [], _ => true
  | _ :: _, [] => false
  | p :: ps, c :: cs => (Char.toLower c == p) && ciStarts ps cs

/- ──────────────── extract_visible_text (validate.py) ──────────────── -/

/-- Remainder of the input after the first closing angle bracket, modelling
the regex fragment that consumes a run of non-bracket characters followed by
the bracket itself. -/
def skipToGt : List Char → Option (List Char)
  | [] => none
  | c :: rest => if c == '>' then some rest else skipToGt rest

/-- Drop everything up to and including the first case-insensitive occurrence
of the closing tag, modelling the non-greedy dot-star up to the closing tag
under DOTALL. -/
def findCloseTag (ctag : List Char) : List Char → Option (List Char)
  | [] => none
  | c :: rest =>
    if ciStarts ctag (c :: rest) then some ((c :: rest).drop ctag.length)
    else findCloseTag ctag rest

/-- One pass of the tag-block removal regex substitution in
extract_visible_text, for a single tag, with IGNORECASE and DOTALL:
leftmost match, replaced by nothing, scanning resumes after the match. -/
def removeBlocksAux (otag ctag : List Char) : Nat → List Char → List Char
  | 0, s => s
  | _ + 1, [] => []
  | fuel + 1, c :: rest =>
    if ciStarts otag (c :: rest) then
      match skipToGt ((c :: rest).drop otag.length) with
      | some afterGt =>
        match findCloseTag ctag afterGt with
        | some afterClose => removeBlocksAux otag ctag fuel afterClose
        | none => c :: removeBlocksAux otag ctag fuel rest
      | none => c :: removeBlocksAux otag ctag fuel rest
    else c :: removeBlocksAux otag ctag fuel rest

def removeBlocks (tag : List Char) (s : List Char) : List Char :=
  removeBlocksAux ('<' :: tag) ('<' :: '/' :: (tag ++ ['>'])) s.length s

/-- The substitution replacing every remaining HTML tag by a space
(a bracket, one or more non-closing-bracket characters, a closing bracket). -/
def stripTags : Nat → List Char → List Char
  | 0, s => s
  | _ + 1, [] => []
  | fuel + 1, c :: rest =>
    if c == '<' then
      match rest with
      | [] => ['<']
      | d :: _ =>
        if d == '>' then '<' :: stripTags fuel rest
        else
          match skipToGt rest with
          | some after => ' ' :: stripTags fuel after
          | none => '<' :: stripTags fuel rest
    else c :: stripTags fuel rest

/-- One pass of Python str.replace, all occurrences, left to right. -/
def replaceAll (pat rep : List Char) : Nat → List Char → List Char
  | 0, s => s
  | _ + 1, [] => []
  | fuel + 1, c :: rest =>
    if listStarts pat (c :: rest) then
      rep ++ replaceAll pat rep fuel ((c :: rest).drop pat.length)
    else c :: replaceAll pat rep fuel rest

def isWordChar (c : Char) : Bool := c.isAlphanum || c == '_'

/-- The entity-removal substitution: ampersand, optional hash sign, one or
more word characters, semicolon, replaced by a space. -/
def entitySub : Nat → List Char → List Char
  | 0, s => s
  | _ + 1, [] => []
  | fuel + 1, c :: rest =>
    if c == '&' then
      let afterHash : List Char :=
        match rest with
        | '#' :: r2 => r2
        | _ => rest
      match afterHash.takeWhile isWordChar, afterHash.dropWhile isWordChar with
      | _ :: _, ';' :: t2 => ' ' :: entitySub fuel t2
      | _, _ => '&' :: entitySub fuel rest
    else c :: entitySub fuel rest

/-- The whitespace-collapsing substitution: every maximal whitespace run
becomes a single space. -/
def collapseWs : Nat → List Char → List Char
  | 0, s => s
  | _ + 1, [] => []
  | fuel + 1, c :: rest =>
    if isPySpace c then ' ' :: collapseWs fuel (rest.dropWhile isPySpace)
    else c :: collapseWs fuel rest

/-- Python str.strip on both ends. -/
def stripEnds (s : List Char) : List Char :=
  ((s.dropWhile isPySpace).reverse.dropWhile isPySpace).reverse

/-- validate.py extract_visible_text: strip script/style/noscript/nav/header/
footer blocks, remove remaining tags, decode common entities, collapse
whitespace, strip. -/
def extract_visible_text (html_content : List Char) : List Char :=
  let t0 := ["script", "style", "noscript", "nav", "header", "footer"].foldl
      (fun acc tag => removeBlocks tag.toList acc) html_content
  let t1 := stripTags t0.length t0
  let t2 := replaceAll "&nbsp;".toList [' '] t1.length t1
  let t3 := replaceAll "&amp;".toList ['&'] t2.length t2
  let t4 := replaceAll "&lt;".toList ['<'] t3.length t3
  let t5 := replaceAll "&gt;".toList ['>'] t4.length t4
  let t6 := entitySub t5.length t5
  let t7 := collapseWs t6.length t6
  stripEnds t7

/- ──────────────── junk indicator lists (validate.py) ──────────────── -/

def DOJ_INDICATORS : List (List Char) :=
  [ "access denied".toList,
    "you don".toList ++ [apos] ++ "t have permission to access".toList,
    "403 forbidden".toList,
    "department of justice".toList,
    "justice.gov".toList,
    "you are not authorized".toList,
    "access to this page is restricted".toList ]

def WAYBACK_ERROR_INDICATORS : List (List Char) :=
  [ "the wayback machine has not archived".toList,
    "this url has been excluded from the wayback machine".toList,
    "hrly captures".toList,
    "web.archive.org/web/".toList,
    "sorry. this url has been excluded".toList,
    "this snapshot cannot be displayed".toList,
    "wayback machine doesn".toList ++ [apos] ++ "t have that page archived".toList,
    "got an http 302 response".toList ]

def GENERIC_ERROR_INDICATORS : List (List Char) :=
  [ "page not found".toList,
    "404 not found".toList,
    "404 error".toList,
    "the page you are looking for".toList,
    "this page has been removed".toList,
    "this page is no longer available".toList,
    "the requested url was not found".toList,
    "we".toList ++ [apos] ++ "re sorry, but the page you requested".toList,
    "content no longer available".toList,
    "has been archived or removed".toList,
    "server error".toList,
    "500 internal server error".toList,
    "502 bad gateway".toList,
    "503 service unavailable".toList ]

/-- validate.py check_for_junk_indicators: the sublist of indicators occurring
case-insensitively in the text. -/
def check_for_junk_indicators (text : List Char) (indicators : List (List Char)) :
    List (List Char) :=
  let text_lower := lowerStr text
  indicators.filter (fun ind => containsSub (lowerStr ind) text_lower)

/- ──────────────── shell-only pattern search (validate.py) ──────────────── -/

def eatLit (pat : List Char) (s : List Char) : Option (List Char) :=
  if ciStarts pat s then some (s.drop pat.length) else none

def eatWs1 : List Char → Option (List Char)
  | [] => none
  | c :: r => if isPySpace c then some ((c :: r).dropWhile isPySpace) else none

/-- Matcher, at one position, for the first SHELL_ONLY_PATTERNS regex:
the word skip, whitespace, the word to, whitespace, optionally the word main
plus whitespace, then the word content (IGNORECASE). -/
def shellPat1At (s : List Char) : Bool :=
  match eatLit "skip".toList s with
  | none => false
  | some s1 =>
    match eatWs1 s1 with
    | none => false
    | some s2 =>
      match eatLit "to".toList s2 with
      | none => false
      | some s3 =>
        match eatWs1 s3 with
        | none => false
        | some s4 =>
          (match eatLit "main".toList s4 with
           | some s5 =>
             (match eatWs1 s5 with
              | some s6 => ciStarts "content".toList s6
              | none => false)
           | none => false)
          || ciStarts "content".toList s4

/-- Matcher, at one position, for the second SHELL_ONLY_PATTERNS regex:
the word skip, whitespace, the word navigation (IGNORECASE). -/
def shellPat2At (s : List Char) : Bool :=
  match eatLit "skip".toList s with
  | none => false
  | some s1 =>
    match eatWs1 s1 with
    | none => false
    | some s2 => ciStarts "navigation".toList s2

def searchAt (p : List Char → Bool) : List Char → Bool
  | [] => p []
  | c :: rest => p (c :: rest) || searchAt p rest

def shellSearch (content : List Char) : Bool :=
  searchAt shellPat1At content || searchAt shellPat2At content

/-- validate.py is_empty_shell: returns (is_shell, visible character count,
reason).  The source loops over the shell patterns and, whenever one matches
and the visible text is short, reports a shell page; after the loop a short
page without shell markers is insufficient content. -/
def is_empty_shell (html_content : List Char) (min_chars : Nat) :
    Bool × Nat × String :=
  if shellSearch html_content = true
      ∧ (extract_visible_text html_content).length < min_chars then
    (true, (extract_visible_text html_content).length, "shell_page_no_content")
  else if (extract_visible_text html_content).length < min_chars then
    (true, (extract_visible_text html_content).length, "insufficient_content")
  else (false, (extract_visible_text html_content).length, "ok")

/- ──────────────── file type detection (validate.py) ──────────────── -/

def FILE_SIGNATURES : List (List Char × String) :=
  [ ("%PDF".toList, "pdf"),
    (['P', 'K', Char.ofNat 3, Char.ofNat 4], "zip_based"),
    ([Char.ofNat 208, Char.ofNat 207, Char.ofNat 17], "ole"),
    ([Char.ofNat 137, 'P', 'N', 'G'], "png"),
    ([Char.ofNat 255, Char.ofNat 216, Char.ofNat 255], "jpg"),
    ("GIF8".toList, "gif"),
    ([lbraceChar, bslash], "rtf") ]

/-- validate.py detect_file_type on an existing readable file: magic bytes of
the first 16 bytes against FILE_SIGNATURES in order, then markup sniffing on
the header, then on the first 2000 characters, otherwise plain text.
The I/O error branches (unknown, binary) are unreachable without
filesystem failures and are not modelled. -/
def detect_file_type (content : List Char) : String :=
  match FILE_SIGNATURES.find? (fun p => listStarts p.1 (content.take 16)) with
  | some p => p.2
  | none =>
    if listStarts "<!doctype".toList (lowerStr (stripEnds (content.take 16)))
        || listStarts "<html".toList (lowerStr (stripEnds (content.take 16)))
        || listStarts "<?xml".toList (lowerStr (stripEnds (content.take 16))) then
      "html"
    else
      if containsSub "<html".toList (lowerStr (content.take 2000))
          || containsSub "<body".toList (lowerStr (content.take 2000)) then "html"
      else "text"

/-- Extension of a filename as computed by os.path.splitext composed with
str.lower: the suffix from the last dot, provided a non-dot character
precedes it, lowercased. -/
def splitextExt (name : List Char) : List Char :=
  match (name.reverse).dropWhile (fun c => c ≠ '.') with
  | [] => []
  | _ :: revBase =>
    if revBase.any (fun c => c ≠ '.') then
      '.' :: ((name.reverse).takeWhile (fun c => c ≠ '.')).reverse
    else []

def extOfName (filename : String) : String :=
  String.mk (lowerStr (splitextExt filename.toList))

/- ──────────────── validate_content (validate.py) ──────────────── -/

/-- validate.py ValidationResult.  The filepath echo and the diagnostic
details bag are not modelled; valid and reason carry the decision. -/
structure ValidationResult where
  valid : Bool
  reason : String
deriving DecidableEq

/-- validate.py validate_content on an existing readable file, given the file
content, the filename (for the declared extension) and min_text_chars.
The file_not_found and read_error branches require filesystem failures and
are not modelled. -/
def validate_content (content : List Char) (filename : String)
    (min_text_chars : Nat) : ValidationResult :=
  if content.length = 0 then ⟨false, "file_empty"⟩
  else if content.length < 200 then ⟨false, "file_too_small"⟩
  else if detect_file_type content ∈ ["pdf", "zip_based", "ole", "rtf"] then
    ⟨true, "ok"⟩
  else if detect_file_type content ∈ ["png", "jpg", "gif"] then ⟨true, "ok"⟩
  else if detect_file_type content ∉ ["html", "text"] then
    (if content.length > 5000 then ⟨true, "ok"⟩ else ⟨false, "file_too_small"⟩)
  else if extOfName filename = ".pdf" ∧ detect_file_type content = "html" then
    ⟨false, "html_masquerade"⟩
  else if check_for_junk_indicators content DOJ_INDICATORS ≠ [] then
    ⟨false, "doj_access_denied"⟩
  else if check_for_junk_indicators content WAYBACK_ERROR_INDICATORS ≠ [] then
    ⟨false, "wayback_error"⟩
  else if check_for_junk_indicators content GENERIC_ERROR_INDICATORS ≠ []
      ∧ (extract_visible_text content).length < 2000 then
    ⟨false, "generic_error_page"⟩
  else if (is_empty_shell content min_text_chars).1 = true then
    ⟨false, (is_empty_shell content min_text_chars).2.2⟩
  else ⟨true, "ok"⟩

/- ──────────────── harvest_v2.py data model ──────────────── -/

/-- One HTTP response as the fetchers see it after redirects: final status,
declared Content-Type, the filename guess_filename would produce, the
network-location of the final URL, and the body.  Transport failures are the
none case of the environment fetch map. -/
structure HttpResp where
  status : Nat
  contentType : String
  filename : String
  finalNetloc : String
  body : List Char

/-- The external world of harvest_v2.py: fetch gives the response a GET to a
URL yields after redirects (none for a requests exception); hrefs gives the
resolved absolute anchor targets BeautifulSoup plus urljoin would extract
from the page served at a URL; urlPath gives the path component of a URL as
urlparse would. -/
structure Env where
  fetch : String → Option HttpResp
  hrefs : String → List String
  urlPath : String → String

/-- One entry of the files_downloaded lists built by the fetchers.  The size,
hash, content-type and page_url bookkeeping fields are not modelled; the
fields the orchestrator branches on (validation_failed, source) and the
recorded validation outcome are. -/
structure FileDict where
  filename : String
  source_url : String
  source : String
  needs_conversion : Bool
  validation_failed : Bool
  validation : ValidationResult
deriving DecidableEq

structure PortalEntry where
  portal_url : String
  status : Option String
deriving DecidableEq

abbrev PortalMap := String → Option PortalEntry

/- ──────────────── harvest_v2.py fetchers ──────────────── -/

def BINARY_CONTENT_TYPES : List (List Char) :=
  [ "pdf".toList, "msword".toList, "officedocument".toList,
    "octet-stream".toList, "ms-excel".toList, "ms-powerpoint".toList,
    "rtf".toList ]

def isHtmlTextCT (ct : List Char) : Bool :=
  containsSub "html".toList ct || containsSub "text".toList ct

/-- harvest_v2.py save_html_page: write the page body as page_content.html,
validate it; on success a needs_conversion entry, on failure the entry is
kept but flagged validation_failed with the failing outcome attached. -/
def save_html_page (html_content : List Char) (page_url : String)
    (source : String) : List FileDict :=
  if (validate_content html_content "page_content.html" 500).valid = true then
    [⟨"page_content.html", page_url, source, true, false,
      validate_content html_content "page_content.html" 500⟩]
  else
    [⟨"page_content.html", page_url, source, false, true,
      validate_content html_content "page_content.html" 500⟩]

def FILE_EXTENSIONS : List String :=
  [".pdf", ".doc", ".docx", ".xls", ".xlsx", ".ppt", ".pptx", ".rtf", ".txt"]

/-- The link-download loop of scrape_page_for_files: keep links whose path
has an allow-listed document extension, deduplicate, download each, validate,
and collect only the validator-accepted files (rejected downloads are removed
and only debug-logged). -/
def scrapeLinks (env : Env) (source : String) :
    List String → List String → List FileDict
  | [], _ => []
  | u :: rest, seen =>
    if FILE_EXTENSIONS.contains (extOfName (env.urlPath u))
        && !(seen.contains u) then
      match env.fetch u with
      | none => scrapeLinks env source rest (u :: seen)
      | some r =>
        if 400 ≤ r.status then scrapeLinks env source rest (u :: seen)
        else if (validate_content r.body r.filename 500).valid = true then
          ⟨r.filename, u, source, false, false,
            validate_content r.body r.filename 500⟩
            :: scrapeLinks env source rest (u :: seen)
        else scrapeLinks env source rest (u :: seen)
    else scrapeLinks env source rest seen

/-- harvest_v2.py scrape_page_for_files: download the document links found on
the page; if none survives, fall back to saving the page itself. -/
def scrape_page_for_files (body : List Char) (page_url : String) (env : Env)
    (source : String) : List FileDict :=
  if scrapeLinks env source (env.hrefs page_url) [] = [] then
    save_html_page body page_url source
  else scrapeLinks env source (env.hrefs page_url) []

/-- harvest_v2.py try_download_url: GET the URL (raising on status 400 and
above); a binary document Content-Type yields the body as a single candidate
kept only if the validator accepts it; an HTML or text Content-Type goes to
the page scraper; anything else yields nothing. -/
def try_download_url (url : String) (env : Env) (source : String) :
    List FileDict :=
  match env.fetch url with
  | none => []
  | some r =>
    if 400 ≤ r.status then []
    else if BINARY_CONTENT_TYPES.any
        (fun b => containsSub b (lowerStr r.contentType.toList)) then
      (if (validate_content r.body r.filename 500).valid = true then
        [⟨r.filename, url, source, false, false,
          validate_content r.body r.filename 500⟩]
      else [])
    else if isHtmlTextCT (lowerStr r.contentType.toList) then
      scrape_page_for_files r.body url env source
    else []

/-- harvest_v2.py try_direct_urls: walk the candidate URLs in order and stop
as soon as one call returns a nonempty file list. -/
def try_direct_urls : List String → Env → List FileDict
  | [], _ => []
  | url :: rest, env =>
    if try_download_url url env "direct" = [] then try_direct_urls rest env
    else try_download_url url env "direct"

structure RowData where
  row_id : String
  office : String
  doc_number : String
  title : String
  date : String
  doc_type : String
  urls : List String

/-- harvest_v2.py try_portal_source: fetch the cross-referenced portal URL
when the map has one for this row. -/
def try_portal_source (row : RowData) (portal_map : PortalMap) (env : Env) :
    List FileDict :=
  match portal_map row.row_id with
  | none => []
  | some entry =>
    if entry.portal_url = "" then []
    else try_download_url entry.portal_url env "portal"

def WAYBACK_BINARY_CTS : List (List Char) :=
  [ "pdf".toList, "msword".toList, "officedocument".toList,
    "octet-stream".toList ]

/-- One iteration of the try_wayback_source loop for a single original URL:
fetch the snapshot wrapper URL; skip on non-200 status or a redirect to a
justice.gov host; accept a validated binary document; for HTML, pre-screen
the DOJ and Wayback indicator families, then save and validate the page;
otherwise move on.  some means an early return, none means continue. -/
def waybackAttempt (url : String) (env : Env) : Option (List FileDict) :=
  match env.fetch ("https://web.archive.org/web/2/" ++ url) with
  | none => none
  | some r =>
    if r.status ≠ 200 then none
    else if containsSub "justice.gov".toList (lowerStr r.finalNetloc.toList)
        = true then none
    else if WAYBACK_BINARY_CTS.any
        (fun b => containsSub b (lowerStr r.contentType.toList)) then
      (if (validate_content r.body r.filename 500).valid = true then
        some [⟨r.filename, url, "wayback", false, false,
          validate_content r.body r.filename 500⟩]
      else none)
    else if isHtmlTextCT (lowerStr r.contentType.toList) then
      if check_for_junk_indicators r.body DOJ_INDICATORS ≠ [] then none
      else if check_for_junk_indicators r.body WAYBACK_ERROR_INDICATORS ≠ []
        then none
      else if (validate_content r.body "wayback_page.html" 500).valid = true
        then
        some [⟨"wayback_page.html", url, "wayback", true, false,
          validate_content r.body "wayback_page.html" 500⟩]
      else none
    else none

def waybackLoop : List String → Env → List FileDict
  | [], _ => []
  | u :: rest, env =>
    match waybackAttempt u env with
    | some files => files
    | none => waybackLoop rest env

/-- harvest_v2.py try_wayback_source: only the first three candidate URLs are
tried against the archive. -/
def try_wayback_source (urls : List String) (env : Env) : List FileDict :=
  waybackLoop (urls.take 3) env

/- ──────────────── harvest_v2.py orchestrator ──────────────── -/

/-- One entry of the attempts list harvest_row builds: a source name and a
coarse step marker. -/
structure Attempt where
  source : String
  result : String
deriving DecidableEq

/-- The metadata dict harvest_row assembles.  The harvested_at timestamp and
harvester_version constant are not modelled (no clock). -/
structure Metadata where
  row_id : String
  office : String
  doc_number : String
  title : String
  date : String
  doc_type : String
  urls : List String
  portal_status : String
  status : String
  source_used : Option String
  files_downloaded : List FileDict
  attempts : List Attempt
deriving DecidableEq

/-- harvest_v2.py harvest_row: the source chain.  Each step appends one
marker to attempts; a step whose files are nonempty and carry no
validation_failed flag wins with status success.  After the chain, the files
variable still refers to the wayback result (the directory listing
all_files_in_dir the source computes at this point is never used), so the
validation_failed branch tests only the wayback files; otherwise the row
fails when it had URLs and is no_urls when it had none. -/
def initMetadata (row : RowData) (portal_map : PortalMap) : Metadata :=
  { row_id := row.row_id
    office := row.office
    doc_number := row.doc_number
    title := row.title
    date := row.date
    doc_type := row.doc_type
    urls := row.urls
    portal_status :=
      (match portal_map row.row_id with
       | some e => e.status.getD "unknown"
       | none => "unknown")
    status := "pending"
    source_used := none
    files_downloaded := []
    attempts := [] }

def harvest_row (row : RowData) (portal_map : PortalMap) (env : Env)
    (dry_run : Bool) : Metadata :=
  if dry_run = true then initMetadata row portal_map
  else
    let meta := initMetadata row portal_map
    let files1 := try_portal_source row portal_map env
    let a1 : List Attempt :=
      [⟨"portal", if files1 = [] then "no_match" else "success"⟩]
    if files1 ≠ [] ∧ files1.any (fun f => f.validation_failed) = false then
      { meta with
        attempts := a1
        files_downloaded := files1
        source_used := some "portal"
        status := "success" }
    else
      let files2 := try_direct_urls row.urls env
      let a2 := a1 ++ [⟨"direct", if files2 = [] then "failed" else "success"⟩]
      if files2 ≠ [] ∧ files2.any (fun f => f.validation_failed) = false then
        { meta with
          attempts := a2
          files_downloaded := files2
          source_used := some "direct"
          status := "success" }
      else
        let files3 := try_wayback_source row.urls env
        let a3 := a2
          ++ [⟨"wayback", if files3 = [] then "failed" else "success"⟩]
        if files3 ≠ [] ∧ files3.any (fun f => f.validation_failed) = false then
          { meta with
            attempts := a3
            files_downloaded := files3
            source_used := some "wayback"
            status := "success" }
        else if files3 ≠ [] ∧ files3.any (fun f => f.validation_failed) = true
          then
          { meta with
            attempts := a3
            files_downloaded := files3
            status := "validation_failed"
            source_used :=
              some ((files3.head?.map (fun f => f.source)).getD "unknown") }
        else if row.urls ≠ [] then
          { meta with
            attempts := a3
            status := "failed" }
        else
          { meta with
            attempts := a3
            status := "no_urls" }

/- ──────────────── resume check (harvest_v2.py main loop) ──────────────── -/

/-- The resume check of the main loop: with the resume flag set and a
readable existing metadata record whose status is success, the row is
skipped.  An unreadable record (the exception branch) is the none case. -/
def resume_skip (resume : Bool) (existing : Option Metadata) : Bool :=
  resume && (match existing with
    | some m => m.status == "success"
    | none => false)

/-- One iteration of the main loop for a row, returning the persisted record
afterwards: a skipped row leaves the existing record untouched and performs
no harvest; otherwise harvest_row runs and its metadata is saved. -/
def run_row (resume : Bool) (existing : Option Metadata) (row : RowData)
    (portal_map : PortalMap) (env : Env) : Option Metadata :=
  if resume_skip resume existing = true then existing
  else some (harvest_row row portal_map env false)

/- ──────────────── concrete fixtures ──────────────── -/

/-- An HTML page whose body carries an access-denied phrase and padding. -/
def bodyDenied : List Char :=
  "<html><body>Access denied. ".toList
  ++ (List.replicate 10 "This page cannot be shown to you at this time. ".toList).flatten
  ++ "</body></html>".toList

/-- A well-formed PDF payload above the size floor. -/
def bodyPdf : List Char :=
  "%PDF-1.4 ".toList ++ (List.replicate 40 "0123456789".toList).flatten

/-- An HTML page with an access-denied phrase and long visible text. -/
def bodyDojLong : List Char :=
  "<html><body>Access denied. ".toList
  ++ (List.replicate 25 "Guidance program policy details for families and children. ".toList).flatten
  ++ "</body></html>".toList

/-- An HTML error page with a generic error phrase and short visible text. -/
def bodyErrShort : List Char :=
  "<html><body>404 not found. ".toList
  ++ (List.replicate 10 "The requested page could not be located on this server. ".toList).flatten
  ++ "</body></html>".toList

def respDenied : HttpResp := ⟨200, "text/html", "page", "www.acf.hhs.gov", bodyDenied⟩

def respPdfOk : HttpResp := ⟨200, "application/pdf", "doc.pdf", "www.acf.hhs.gov", bodyPdf⟩

def respTiny : HttpResp := ⟨200, "application/pdf", "doc.pdf", "www.acf.hhs.gov", "x".toList⟩

def pmNone : PortalMap := fun _ => none

def envNone : Env := ⟨fun _ => none, fun _ => [], fun _ => ""⟩

def urlA : String := "https://example.org/a"

def urlB : String := "https://example.org/b"

def urlDead : String := "https://example.org/dead"

/-- Environment in which urlA serves the rejected access-denied page and urlB
serves a valid PDF. -/
def envAB : Env :=
  ⟨fun u =>
    if u = urlA then some respDenied
    else if u = urlB then some respPdfOk
    else none,
   fun _ => [], fun _ => ""⟩

/-- Environment in which urlA serves a too-small PDF (artifact produced but
rejected by the validator) and urlB serves a valid PDF. -/
def envTinyA : Env :=
  ⟨fun u =>
    if u = urlA then some respTiny
    else if u = urlB then some respPdfOk
    else none,
   fun _ => [], fun _ => ""⟩

/-- Environment identical to envTinyA except that the request to urlA fails at
the transport level, so no artifact is ever produced there. -/
def envFailA : Env :=
  ⟨fun u => if u = urlB then some respPdfOk else none,
   fun _ => [], fun _ => ""⟩

def rowNoUrls : RowData := ⟨"0001", "", "", "", "", "", []⟩

def rowOneUrl : RowData := ⟨"0002", "", "", "", "", "", [urlA]⟩

def rowTwoUrls : RowData := ⟨"0005", "", "", "", "", "", [urlA, urlB]⟩

def rowDirectOk : RowData := ⟨"0004", "", "", "", "", "", [urlB]⟩

def metaDone : Metadata :=
  ⟨"0009", "", "", "", "", "", [], "unknown", "success", some "direct", [], []⟩

/- ──────────────── claim theorems ──────────────── -/

/-- C1 counterexample: a reference with no candidate URLs and no portal map
entry ends with status no_urls, but its attempt log is not empty — the
orchestrator still appends one coarse marker per source step. -/
theorem no_urls_attempt_log_nonempty_cex :
    (harvest_row rowNoUrls pmNone envNone false).status = "no_urls"
      ∧ (harvest_row rowNoUrls pmNone envNone false).attempts ≠ [] := by
  decide

/-- C2 (code bug): a reference whose only URL serves an HTML page that is
saved and rejected by the validator (an artifact was produced and rejected),
with nothing from the archive, ends with status failed, not
validation_failed: the terminal branch of harvest_row consults only the
wayback step files, and the directory listing it computes for this purpose
is never used. -/
theorem rejected_artifact_reports_failed_cex :
    (try_direct_urls rowOneUrl.urls envAB).any (fun f => f.validation_failed)
        = true
      ∧ (harvest_row rowOneUrl pmNone envAB false).status = "failed"
      ∧ (harvest_row rowOneUrl pmNone envAB false).status
          ≠ "validation_failed" := by
  decide

/-- C3 counterexample: the direct step stops at the first URL that yields any
file entries, even when all of them were rejected by the validator — here the
first URL yields a saved HTML page flagged validation_failed, the iteration
terminates, and the second URL, which would have yielded a validator-accepted
PDF, is never reached. -/
theorem direct_stops_on_rejected_html_cex :
    (try_direct_urls [urlA, urlB] envAB).all (fun f => f.validation_failed)
        = true
      ∧ try_direct_urls [urlA, urlB] envAB ≠ []
      ∧ (try_download_url urlB envAB "direct").any
          (fun f => f.validation.valid) = true := by
  decide

/-- C5 counterexample: a run in which the first URL produced an artifact that
the validator rejected (a too-small PDF) yields a DocumentRecord identical to
a run in which that URL failed at the transport level and produced nothing —
the rejection is recorded nowhere in the record. -/
theorem rejection_indistinguishable_cex :
    (envTinyA.fetch urlA).isSome = true
      ∧ (validate_content respTiny.body respTiny.filename 500).valid = false
      ∧ harvest_row rowTwoUrls pmNone envTinyA false
          = harvest_row rowTwoUrls pmNone envFailA false := by
  decide

/-- C6 counterexample: an HTML file declared with a pdf extension whose raw
content contains the access-denied indicator and whose visible text exceeds
the minimum length is rejected as html_masquerade, not with the access-denied
reason code — the masquerade check precedes the indicator checks. -/
theorem doj_phrase_pdf_masquerade_cex :
    check_for_junk_indicators bodyDojLong DOJ_INDICATORS ≠ []
      ∧ 500 ≤ (extract_visible_text bodyDojLong).length
      ∧ detect_file_type bodyDojLong = "html"
      ∧ validate_content bodyDojLong "document.pdf" 500
          = ⟨false, "html_masquerade"⟩ := by
  decide

theorem is_empty_shell_shell_reason_ne_ok (c : List Char) (m : Nat)
    (h : (is_empty_shell c m).1 = true) : (is_empty_shell c m).2.2 ≠ "ok" := by
  unfold is_empty_shell at h ⊢
  by_cases h1 : shellSearch c = true ∧ (extract_visible_text c).length < m
  · rw [if_pos h1]; simp
  · rw [if_neg h1] at h ⊢
    by_cases h2 : (extract_visible_text c).length < m
    · rw [if_pos h2]; simp
    · rw [if_neg h2] at h; simp at h

theorem is_empty_shell_reason_cases (c : List Char) (m : Nat) :
    (is_empty_shell c m).2.2 = "shell_page_no_content"
      ∨ (is_empty_shell c m).2.2 = "insufficient_content"
      ∨ (is_empty_shell c m).2.2 = "ok" := by
  unfold is_empty_shell
  split
  · left; rfl
  · split
    · right; left; rfl
    · right; right; rfl

/-- C10: every result of validate_content has its accepted flag true exactly
when its reason code is ok. -/
theorem validate_valid_iff_reason_ok (content : List Char) (filename : String)
    (min_text_chars : Nat) :
    (validate_content content filename min_text_chars).valid
      = ((validate_content content filename min_text_chars).reason == "ok") := by
  unfold validate_content
  split
  · decide
  · split
    · decide
    · split
      · decide
      · split
        · decide
        · split
          · split
            · decide
            · decide
          · split
            · decide
            · split
              · decide
              · split
                · decide
                · split
                  · decide
                  · split
                    · rename_i hshell
                      have hne := is_empty_shell_shell_reason_ne_ok content
                        min_text_chars hshell
                      simp only [ValidationResult.valid, ValidationResult.reason]
                      exact (beq_eq_false_iff_ne.mpr hne).symm
                    · decide

/-- C8: validate_content rejects with reason generic_error_page only when the
extracted visible text is shorter than 2000 characters; a file containing a
generic error-page phrase whose visible text is at least 2000 characters long
is never rejected with that reason. -/
theorem generic_error_requires_short_text :
    (∀ (content : List Char) (filename : String) (m : Nat),
        (validate_content content filename m).reason = "generic_error_page" →
          (extract_visible_text content).length < 2000)
      ∧ (∀ (content : List Char) (filename : String) (m : Nat),
          check_for_junk_indicators content GENERIC_ERROR_INDICATORS ≠ [] →
          2000 ≤ (extract_visible_text content).length →
          (validate_content content filename m).reason
            ≠ "generic_error_page") := by
  have part1 : ∀ (content : List Char) (filename : String) (m : Nat),
      (validate_content content filename m).reason = "generic_error_page" →
        (extract_visible_text content).length < 2000 := by
    intro c f m h
    unfold validate_content at h
    split at h
    · exact absurd h (by decide)
    · split at h
      · exact absurd h (by decide)
      · split at h
        · exact absurd h (by decide)
        · split at h
          · exact absurd h (by decide)
          · split at h
            · split at h
              · exact absurd h (by decide)
              · exact absurd h (by decide)
            · split at h
              · exact absurd h (by decide)
              · split at h
                · exact absurd h (by decide)
                · split at h
                  · exact absurd h (by decide)
                  · split at h
                    · rename_i hcond
                      exact hcond.2
                    · split at h
                      · rcases is_empty_shell_reason_cases c m with hr | hr | hr
                          <;> rw [hr] at h <;> exact absurd h (by decide)
                      · exact absurd h (by decide)
  refine ⟨part1, ?_⟩
  intro c f m h1 h2 h
  exact absurd (part1 c f m h) (by omega)

/-- C8 witness: a short 404 page is rejected as generic_error_page, and the
theorem applied to it confirms its visible text is below 2000 characters. -/
theorem generic_error_requires_short_text_witness :
    (validate_content bodyErrShort "page.html" 500).reason
        = "generic_error_page"
      ∧ (extract_visible_text bodyErrShort).length < 2000 :=
  ⟨by decide,
   generic_error_requires_short_text.1 bodyErrShort "page.html" 500
     (by decide)⟩

theorem listStarts_exists_append {l1 l2 : List Char}
    (h : listStarts l1 l2 = true) : ∃ t, l2 = l1 ++ t := by
  induction l1 generalizing l2 with
  | nil => exact ⟨l2, rfl⟩
  | cons a as ih =>
    cases l2 with
    | nil => simp [listStarts] at h
    | cons b bs =>
      simp only [listStarts, Bool.and_eq_true, beq_iff_eq] at h
      obtain ⟨rfl, h2⟩ := h
      obtain ⟨t, rfl⟩ := ih h2
      exact ⟨t, rfl⟩

/-- C7: any file whose magic bytes carry one of the recognized binary
document signatures (pdf, zip-based Office, legacy OLE Office, rtf) and whose
size is at least the 200-byte floor is accepted with reason ok, whatever its
declared extension. -/
theorem binary_signature_accepted (content : List Char) (filename : String)
    (m : Nat) (hlen : 200 ≤ content.length)
    (hsig : listStarts "%PDF".toList content = true
      ∨ listStarts ['P', 'K', Char.ofNat 3, Char.ofNat 4] content = true
      ∨ listStarts [Char.ofNat 208, Char.ofNat 207, Char.ofNat 17]
          content = true
      ∨ listStarts [lbraceChar, bslash] content = true) :
    validate_content content filename m = ⟨true, "ok"⟩ := by
  have h0 : ¬ content.length = 0 := by omega
  have h1 : ¬ content.length < 200 := by omega
  rcases hsig with h | h | h | h
  · obtain ⟨t, rfl⟩ := listStarts_exists_append h
    unfold validate_content
    rw [if_neg h0, if_neg h1, if_pos]
    rw [show detect_file_type ("%PDF".toList ++ t) = "pdf" from rfl]
    decide
  · obtain ⟨t, rfl⟩ := listStarts_exists_append h
    unfold validate_content
    rw [if_neg h0, if_neg h1, if_pos]
    rw [show detect_file_type (['P', 'K', Char.ofNat 3, Char.ofNat 4] ++ t)
        = "zip_based" from rfl]
    decide
  · obtain ⟨t, rfl⟩ := listStarts_exists_append h
    unfold validate_content
    rw [if_neg h0, if_neg h1, if_pos]
    rw [show detect_file_type ([Char.ofNat 208, Char.ofNat 207, Char.ofNat 17]
        ++ t) = "ole" from rfl]
    decide
  · obtain ⟨t, rfl⟩ := listStarts_exists_append h
    unfold validate_content
    rw [if_neg h0, if_neg h1, if_pos]
    rw [show detect_file_type ([lbraceChar, bslash] ++ t) = "rtf" from rfl]
    decide

/-- C7 witness: a PDF-signature payload above the size floor, declared with a
misleading html extension, is accepted with reason ok. -/
theorem binary_signature_accepted_witness :
    200 ≤ bodyPdf.length
      ∧ validate_content bodyPdf "report.html" 500 = ⟨true, "ok"⟩ :=
  ⟨by decide,
   binary_signature_accepted bodyPdf "report.html" 500 (by decide)
     (Or.inl (by decide))⟩

/-- C6 (amended): for an HTML or text file of at least 200 bytes whose raw
content contains an access-denied indicator phrase, validate_content rejects
it with the access-denied reason code whatever its visible-text length —
the indicator check precedes every length check — except that a file whose
declared extension is pdf while its detected type is html is caught by the
earlier masquerade check. -/
theorem doj_indicator_rejects_before_length (content : List Char)
    (filename : String) (m : Nat) (hlen : 200 ≤ content.length)
    (htype : detect_file_type content = "html"
      ∨ detect_file_type content = "text")
    (hnm : ¬ (extOfName filename = ".pdf" ∧ detect_file_type content = "html"))
    (hdoj : check_for_junk_indicators content DOJ_INDICATORS ≠ []) :
    validate_content content filename m = ⟨false, "doj_access_denied"⟩ := by
  have h0 : ¬ content.length = 0 := by omega
  have h1 : ¬ content.length < 200 := by omega
  unfold validate_content
  rw [if_neg h0, if_neg h1]
  rcases htype with ht | ht <;> rw [ht] <;> rw [ht] at hnm
  · rw [if_neg (by decide), if_neg (by decide),
      if_neg (show ¬ ("html" : String) ∉ ["html", "text"] by decide),
      if_neg hnm, if_pos hdoj]
  · rw [if_neg (by decide), if_neg (by decide),
      if_neg (show ¬ ("text" : String) ∉ ["html", "text"] by decide),
      if_neg hnm, if_pos hdoj]

/-- C6 amended witness: an HTML page with an access-denied phrase and visible
text well above the minimum length, declared as html, is rejected with the
access-denied reason code. -/
theorem doj_indicator_rejects_before_length_witness :
    500 ≤ (extract_visible_text bodyDojLong).length
      ∧ validate_content bodyDojLong "page.html" 500
          = ⟨false, "doj_access_denied"⟩ :=
  ⟨by decide,
   doj_indicator_rejects_before_length bodyDojLong "page.html" 500 (by decide)
     (Or.inl (by decide)) (by decide) (by decide)⟩

/-- C1 (amended): a reference with no candidate URLs and no cross-reference
entry ends with status no_urls and with an attempt log consisting exactly of
the three per-step markers (portal no_match, direct failed, wayback failed);
no URL is fetched, but the markers are still appended. -/
theorem no_urls_status_with_step_markers (row : RowData)
    (portal_map : PortalMap) (env : Env) (hu : row.urls = [])
    (hp : portal_map row.row_id = none) :
    (harvest_row row portal_map env false).status = "no_urls"
      ∧ (harvest_row row portal_map env false).attempts
          = [⟨"portal", "no_match"⟩, ⟨"direct", "failed"⟩,
             ⟨"wayback", "failed"⟩] := by
  have h1 : try_portal_source row portal_map env = [] := by
    unfold try_portal_source
    rw [hp]
  have h2 : try_direct_urls [] env = [] := rfl
  have h3 : try_wayback_source [] env = [] := rfl
  unfold harvest_row
  rw [if_neg (by decide)]
  simp only [h1, hu, h2, h3]
  simp

/-- C1 amended witness: the concrete empty-URL row with an empty portal map
is resolved to no_urls with exactly the three step markers. -/
theorem no_urls_status_with_step_markers_witness :
    (harvest_row rowNoUrls pmNone envNone false).status = "no_urls"
      ∧ (harvest_row rowNoUrls pmNone envNone false).attempts
          = [⟨"portal", "no_match"⟩, ⟨"direct", "failed"⟩,
             ⟨"wayback", "failed"⟩] :=
  no_urls_status_with_step_markers rowNoUrls pmNone envNone rfl rfl

/-- C3 (amended): the direct step walks the candidate URLs in the order
supplied and stops at the first URL whose download call yields any file
entries — validator-accepted files, or a saved HTML page flagged
validation_failed; URLs that yield no entry at all (transport failure,
unusable content type, or a rejected binary download) do not terminate the
iteration, and everything after the first productive URL is ignored. -/
theorem direct_first_nonempty_wins (pre : List String) (u : String)
    (post : List String) (env : Env)
    (hpre : ∀ v ∈ pre, try_download_url v env "direct" = [])
    (hu : try_download_url u env "direct" ≠ []) :
    try_direct_urls (pre ++ u :: post) env = try_download_url u env "direct" := by
  induction pre with
  | nil =>
    unfold try_direct_urls
    simp [if_neg hu]
  | cons v rest ih =>
    have hv : try_download_url v env "direct" = [] := hpre v (by simp)
    rw [List.cons_append]
    unfold try_direct_urls
    rw [if_pos hv]
    exact ih (fun w hw => hpre w (List.mem_cons_of_mem v hw))

/-- C3 amended witness: a transport-dead URL is skipped, the next URL yields
the (rejected) page entry and the iteration stops there, ignoring the later
URL. -/
theorem direct_first_nonempty_wins_witness :
    (∀ v ∈ [urlDead], try_download_url v envAB "direct" = [])
      ∧ try_download_url urlA envAB "direct" ≠ []
      ∧ try_direct_urls ([urlDead] ++ urlA :: [urlB]) envAB
          = try_download_url urlA envAB "direct" :=
  ⟨by decide, by decide,
   direct_first_nonempty_wins [urlDead] urlA [urlB] envAB (by decide)
     (by decide)⟩

theorem try_download_url_fetch_none {url : String} {env : Env} {src : String}
    (h : env.fetch url = none) : try_download_url url env src = [] := by
  unfold try_download_url
  rw [h]

theorem try_download_url_fetch_some {url : String} {env : Env} {src : String}
    {r : HttpResp} (h : env.fetch url = some r) :
    try_download_url url env src =
      (if 400 ≤ r.status then []
       else if BINARY_CONTENT_TYPES.any
           (fun b => containsSub b (lowerStr r.contentType.toList)) then
         (if (validate_content r.body r.filename 500).valid = true then
           [⟨r.filename, url, src, false, false,
             validate_content r.body r.filename 500⟩]
         else [])
       else if isHtmlTextCT (lowerStr r.contentType.toList) then
         scrape_page_for_files r.body url env src
       else []) := by
  unfold try_download_url
  rw [h]

theorem scrapeLinks_no_validation_failed (env : Env) (src : String)
    (links seen : List String) :
    ∀ f ∈ scrapeLinks env src links seen, f.validation_failed = false := by
  induction links generalizing seen with
  | nil => intro f hf; simp [scrapeLinks] at hf
  | cons u rest ih =>
    intro f hf
    unfold scrapeLinks at hf
    split at hf
    · split at hf
      · exact ih _ f hf
      · split at hf
        · exact ih _ f hf
        · split at hf
          · rcases List.mem_cons.mp hf with rfl | hmem
            · rfl
            · exact ih _ f hmem
          · exact ih _ f hf
    · exact ih _ f hf

theorem save_html_page_dichotomy (body : List Char) (u src : String) :
    (∀ f ∈ save_html_page body u src, f.validation_failed = false)
      ∨ ∀ f ∈ save_html_page body u src, f.validation.valid = false := by
  unfold save_html_page
  by_cases hv : (validate_content body "page_content.html" 500).valid = true
  · left
    rw [if_pos hv]
    intro f hf
    rcases List.mem_singleton.mp hf with rfl
    rfl
  · right
    rw [if_neg hv]
    intro f hf
    rcases List.mem_singleton.mp hf with rfl
    simpa using hv

theorem scrape_dichotomy (body : List Char) (page_url : String) (env : Env)
    (src : String) :
    (∀ f ∈ scrape_page_for_files body page_url env src,
        f.validation_failed = false)
      ∨ ∀ f ∈ scrape_page_for_files body page_url env src,
          f.validation.valid = false := by
  unfold scrape_page_for_files
  by_cases hd : scrapeLinks env src (env.hrefs page_url) [] = []
  · rw [if_pos hd]
    exact save_html_page_dichotomy body page_url src
  · rw [if_neg hd]
    left
    exact fun f hf => scrapeLinks_no_validation_failed env src _ [] f hf

theorem try_download_url_dichotomy (url : String) (env : Env) (src : String) :
    (∀ f ∈ try_download_url url env src, f.validation_failed = false)
      ∨ ∀ f ∈ try_download_url url env src, f.validation.valid = false := by
  cases hfe : env.fetch url with
  | none =>
    left
    rw [try_download_url_fetch_none hfe]
    simp
  | some r =>
    rw [try_download_url_fetch_some hfe]
    by_cases h4 : 400 ≤ r.status
    · left
      rw [if_pos h4]
      simp
    · rw [if_neg h4]
      by_cases hb : BINARY_CONTENT_TYPES.any
          (fun b => containsSub b (lowerStr r.contentType.toList)) = true
      · rw [if_pos hb]
        by_cases hv : (validate_content r.body r.filename 500).valid = true
        · left
          rw [if_pos hv]
          intro f hf
          rcases List.mem_singleton.mp hf with rfl
          rfl
        · left
          rw [if_neg hv]
          simp
      · rw [if_neg hb]
        by_cases hh : isHtmlTextCT (lowerStr r.contentType.toList) = true
        · rw [if_pos hh]
          exact scrape_dichotomy r.body url env src
        · left
          rw [if_neg hh]
          simp

theorem try_direct_urls_dichotomy (urls : List String) (env : Env) :
    (∀ f ∈ try_direct_urls urls env, f.validation_failed = false)
      ∨ ∀ f ∈ try_direct_urls urls env, f.validation.valid = false := by
  induction urls with
  | nil =>
    left
    intro f hf
    simp [try_direct_urls] at hf
  | cons u rest ih =>
    unfold try_direct_urls
    by_cases he : try_download_url u env "direct" = []
    · rw [if_pos he]
      exact ih
    · rw [if_neg he]
      exact try_download_url_dichotomy u env "direct"

/-- C4: whenever the direct step yields at least one validator-accepted
artifact, the wayback fetcher never contributes: the resulting record has no
wayback entry in its attempt log. -/
theorem direct_success_no_wayback_attempt (row : RowData)
    (portal_map : PortalMap) (env : Env)
    (h : ∃ f ∈ try_direct_urls row.urls env, f.validation.valid = true) :
    ∀ a ∈ (harvest_row row portal_map env false).attempts,
      a.source ≠ "wayback" := by
  have hne : try_direct_urls row.urls env ≠ [] := by
    obtain ⟨f, hf, _⟩ := h
    exact List.ne_nil_of_mem hf
  have hvf : (try_direct_urls row.urls env).any
      (fun f => f.validation_failed) = false := by
    rcases try_direct_urls_dichotomy row.urls env with hall | hall
    · rw [List.any_eq_false]
      intro f hf
      simp [hall f hf]
    · obtain ⟨f, hf, hv⟩ := h
      rw [hall f hf] at hv
      exact absurd hv (by decide)
  unfold harvest_row
  rw [if_neg (by decide)]
  by_cases hport : try_portal_source row portal_map env ≠ []
      ∧ (try_portal_source row portal_map env).any
          (fun f => f.validation_failed) = false
  · rw [if_pos hport]
    intro a ha
    rcases List.mem_singleton.mp ha with rfl
    simp
  · rw [if_neg hport, if_pos ⟨hne, hvf⟩]
    intro a ha
    rcases List.mem_append.mp ha with h1 | h2
    · rcases List.mem_singleton.mp h1 with rfl
      simp
    · rcases List.mem_singleton.mp h2 with rfl
      simp

/-- C4 witness: with the direct URL serving a valid PDF, the chain stops at
the direct step and the attempt log carries no wayback entry. -/
theorem direct_success_no_wayback_attempt_witness :
    (∃ f ∈ try_direct_urls rowDirectOk.urls envAB, f.validation.valid = true)
      ∧ ∀ a ∈ (harvest_row rowDirectOk pmNone envAB false).attempts,
          a.source ≠ "wayback" :=
  ⟨by decide,
   direct_success_no_wayback_attempt rowDirectOk pmNone envAB (by decide)⟩

theorem harvest_row_attempts_cases (row : RowData) (portal_map : PortalMap)
    (env : Env) (dry_run : Bool) :
    ∃ pr dr wr : String,
      (pr = "no_match" ∨ pr = "success")
        ∧ (dr = "failed" ∨ dr = "success")
        ∧ (wr = "failed" ∨ wr = "success")
        ∧ ((harvest_row row portal_map env dry_run).attempts = []
          ∨ (harvest_row row portal_map env dry_run).attempts
              = [⟨"portal", pr⟩]
          ∨ (harvest_row row portal_map env dry_run).attempts
              = [⟨"portal", pr⟩, ⟨"direct", dr⟩]
          ∨ (harvest_row row portal_map env dry_run).attempts
              = [⟨"portal", pr⟩, ⟨"direct", dr⟩, ⟨"wayback", wr⟩]) := by
  refine ⟨if try_portal_source row portal_map env = []
      then "no_match" else "success",
    if try_direct_urls row.urls env = [] then "failed" else "success",
    if try_wayback_source row.urls env = [] then "failed" else "success",
    ?_, ?_, ?_, ?_⟩
  · split
    · exact Or.inl rfl
    · exact Or.inr rfl
  · split
    · exact Or.inl rfl
    · exact Or.inr rfl
  · split
    · exact Or.inl rfl
    · exact Or.inr rfl
  · simp only [harvest_row]
    split
    · left
      simp [initMetadata]
    · split
      · right; left
        rfl
      · split
        · right; right; left
          simp
        · split
          · right; right; right
            simp
          · split
            · right; right; right
              simp
            · split
              · right; right; right
                simp
              · right; right; right
                simp

/-- C5 (amended): the DocumentRecord attempt log never carries per-rejection
information: it holds at most three entries, one coarse marker per source
step, whose source is portal, direct or wayback and whose result marker is
success, no_match or failed — individual URL rejections, their validation
outcomes and reason codes are not recorded in the record (they only steer
control flow and the debug log). -/
theorem attempt_log_only_step_markers (row : RowData)
    (portal_map : PortalMap) (env : Env) (dry_run : Bool) :
    (harvest_row row portal_map env dry_run).attempts.length ≤ 3
      ∧ ∀ a ∈ (harvest_row row portal_map env dry_run).attempts,
          (a.source = "portal" ∨ a.source = "direct" ∨ a.source = "wayback")
            ∧ (a.result = "success" ∨ a.result = "no_match"
                ∨ a.result = "failed") := by
  obtain ⟨pr, dr, wr, hpr, hdr, hwr, hcase⟩ :=
    harvest_row_attempts_cases row portal_map env dry_run
  have hp : pr = "success" ∨ pr = "no_match" ∨ pr = "failed" := by tauto
  have hd : dr = "success" ∨ dr = "no_match" ∨ dr = "failed" := by tauto
  have hw : wr = "success" ∨ wr = "no_match" ∨ wr = "failed" := by tauto
  rcases hcase with h | h | h | h <;> rw [h]
  · exact ⟨by simp, by intro a ha; simp at ha⟩
  · refine ⟨by simp, ?_⟩
    intro a ha
    rcases List.mem_singleton.mp ha with rfl
    exact ⟨Or.inl rfl, hp⟩
  · refine ⟨by simp, ?_⟩
    intro a ha
    simp only [List.mem_cons, List.not_mem_nil, or_false] at ha
    rcases ha with rfl | rfl
    · exact ⟨Or.inl rfl, hp⟩
    · exact ⟨Or.inr (Or.inl rfl), hd⟩
  · refine ⟨by simp, ?_⟩
    intro a ha
    simp only [List.mem_cons, List.not_mem_nil, or_false] at ha
    rcases ha with rfl | rfl | rfl
    · exact ⟨Or.inl rfl, hp⟩
    · exact ⟨Or.inr (Or.inl rfl), hd⟩
    · exact ⟨Or.inr (Or.inr rfl), hw⟩

/-- C5 amended witness: on the concrete rejected-page run, the theorem
applied at the wayback marker of the record confirms the marker shape. -/
theorem attempt_log_only_step_markers_witness :
    ((⟨"wayback", "failed"⟩ : Attempt) ∈
        (harvest_row rowOneUrl pmNone envAB false).attempts)
      ∧ (((⟨"wayback", "failed"⟩ : Attempt).source = "portal"
            ∨ (⟨"wayback", "failed"⟩ : Attempt).source = "direct"
            ∨ (⟨"wayback", "failed"⟩ : Attempt).source = "wayback")
          ∧ ((⟨"wayback", "failed"⟩ : Attempt).result = "success"
            ∨ (⟨"wayback", "failed"⟩ : Attempt).result = "no_match"
            ∨ (⟨"wayback", "failed"⟩ : Attempt).result = "failed")) :=
  ⟨by decide,
   (attempt_log_only_step_markers rowOneUrl pmNone envAB false).2
     ⟨"wayback", "failed"⟩ (by decide)⟩

/-- C9: with resume requested and an existing readable record whose status is
success, the row is skipped: no harvest runs and the persisted record is left
exactly as it was, so no new attempt is appended. -/
theorem resume_success_skip (m : Metadata) (row : RowData)
    (portal_map : PortalMap) (env : Env) (h : m.status = "success") :
    run_row true (some m) row portal_map env = some m := by
  unfold run_row resume_skip
  simp only [Bool.true_and]
  rw [if_pos]
  show (m.status == "success") = true
  rw [h]
  rfl

/-- C9 witness: a concrete success record is returned untouched by the
resume-mode iteration. -/
theorem resume_success_skip_witness :
    metaDone.status = "success"
      ∧ run_row true (some metaDone) rowNoUrls pmNone envNone = some metaDone :=
  ⟨rfl, resume_success_skip metaDone rowNoUrls pmNone envNone rfl⟩
